import Mathlib

/-!
Verification development for the redis-watch repository.

The core under study is the connection registry and command-execution
gateway implemented in the server module (functions `connectToRedis`,
`getRedisInfo`, `getRedisKeys`, `executeRedisCommand`, `getServerMetrics`,
`disconnectRedis` over a module-level `connections` Map), together with
the bounded client-side command-history update in `handleExecute`.

Shallow embedding conventions:
- The module-level `Map<string, RedisClientType>` becomes an association
  list inside an explicit `ServerState` that every operation threads.
- A live Redis client session is a record of its observable behaviors:
  `sendCommand`, `keys`, `type`, `ttl`, `info` are functions returning
  `Except String _` (the error models a rejected promise, carrying the
  thrown error message), and `quit` is an `Except String Unit`.
- `createClient(...).connect()` is abstracted as an `Except String Session`
  input to `connectToRedis`: the environment decides whether opening the
  new session succeeds and which session it yields.
- Sessions carry an identifier `sid`; `ServerState.quitLog` records, in
  order, the `sid` of every session whose `quit()` call completed, so the
  side effect of terminating a session stays observable in the state.
-/

/-- Redis protocol reply union (nil, integer, bulk string, status, array),
as produced by the client library's sendCommand. -/
inductive RValue where
  | nil : RValue
  | int : Int → RValue
  | str : String → RValue
  | status : String → RValue
  | arr : List RValue → RValue
deriving Repr

/-- Joins serialized array elements with comma separators. -/
def joinCommas : List String → String
  | [] => ""
  | [s] => s
  | s :: rest => s ++ "," ++ joinCommas rest

mutual

/-- Model of the JavaScript runtime call JSON.stringify(result, null, 2)
used by executeRedisCommand, at the granularity the development needs:
a definite computable serialization of the reply union. -/
def jsonStringify : RValue → String
  | RValue.nil => "null"
  | RValue.int n => toString n
  | RValue.str s => "\x22" ++ s ++ "\x22"
  | RValue.status s => "\x22" ++ s ++ "\x22"
  | RValue.arr xs => "[" ++ joinCommas (jsonStringifyList xs) ++ "]"

/-- Serializes each element of an array reply. -/
def jsonStringifyList : List RValue → List String
  | [] => []
  | x :: xs => jsonStringify x :: jsonStringifyList xs

end

/-- A live Redis client session, modeled by its observable behaviors.
Each protocol call may fail; the String error is the thrown message. -/
structure Session where
  sid : String
  reply : List String → Except String RValue
  keysFn : String → Except String (List String)
  typeFn : String → Except String String
  ttlFn : String → Except String Int
  infoFn : Option String → Except String String
  quitRes : Except String Unit

/-- Server-side state: the module-level connections Map as an association
list, plus a log of session ids whose quit() completed successfully
(making termination side effects observable). -/
structure ServerState where
  connections : List (String × Session)
  quitLog : List String

/-- Map.get on the connections association list (first binding wins). -/
def lookupAssoc : List (String × Session) → String → Option Session
  | [], _ => none
  | (k, v) :: t, id => if k = id then some v else lookupAssoc t id

/-- Map.set: replace the existing binding in place, or append a new one. -/
def setAssoc : List (String × Session) → String → Session → List (String × Session)
  | [], id, s => [(id, s)]
  | (k, v) :: t, id, s => if k = id then (id, s) :: t else (k, v) :: setAssoc t id s

/-- Map.delete: remove every binding for the id. -/
def removeAssoc (l : List (String × Session)) (id : String) : List (String × Session) :=
  l.filter (fun p => p.1 ≠ id)


/-- Result shape of connectToRedis: success/message on the happy path,
success=false/error with the thrown message otherwise. -/
structure ConnectResult where
  success : Bool
  message : Option String
  error : Option String
deriving Repr, DecidableEq

/-- Result shape of getRedisInfo. -/
structure InfoResult where
  success : Bool
  info : Option String
  error : Option String
deriving Repr, DecidableEq

/-- One entry of the key listing: name, type and ttl fetched per key. -/
structure KeyDetail where
  name : String
  type : String
  ttl : Int
deriving Repr, DecidableEq

/-- Result shape of getRedisKeys. -/
structure KeysResult where
  success : Bool
  keys : Option (List KeyDetail)
  error : Option String
deriving Repr, DecidableEq

/-- Result shape of executeRedisCommand: result is the JSON-serialized
reply on success. -/
structure ExecResult where
  success : Bool
  result : Option String
  error : Option String
deriving Repr, DecidableEq

/-- Result shape of getServerMetrics: the three raw INFO section texts. -/
structure MetricsResult where
  success : Bool
  server : Option String
  stats : Option String
  memory : Option String
  error : Option String
deriving Repr, DecidableEq

/-- Result shape of disconnectRedis. -/
structure DisconnectResult where
  success : Bool
deriving Repr, DecidableEq

/-- Embeds connectToRedis(id, host, port, password?). The outcome of
createClient(...)  followed by client.connect() is the newClient input
(ok session, or error with the thrown message). Source behavior: inside
one try block, if the id has a binding its session is quit first; a throw
anywhere lands in the catch, which returns success=false with the error
message and performs no further mutation. On full success the new session
is registered under id. -/
def connectToRedis (st : ServerState) (id : String)
    (newClient : Except String Session) : ConnectResult × ServerState :=
  match lookupAssoc st.connections id with
  | some old =>
    match old.quitRes with
    | Except.ok _ =>
      let st1 : ServerState :=
        { st with quitLog := st.quitLog ++ [old.sid] }
      match newClient with
      | Except.ok s =>
        (⟨true, some "Connected to Redis", none⟩,
         { st1 with connections := setAssoc st1.connections id s })
      | Except.error e => (⟨false, none, some e⟩, st1)
    | Except.error e => (⟨false, none, some e⟩, st)
  | none =>
    match newClient with
    | Except.ok s =>
      (⟨true, some "Connected to Redis", none⟩,
       { st with connections := setAssoc st.connections id s })
    | Except.error e => (⟨false, none, some e⟩, st)

/-- Embeds getRedisInfo(id): absent id yields the Not connected failure;
otherwise client.info() is issued and its text or thrown message returned. -/
def getRedisInfo (st : ServerState) (id : String) : InfoResult × ServerState :=
  match lookupAssoc st.connections id with
  | none => (⟨false, none, some "Not connected"⟩, st)
  | some client =>
    match client.infoFn none with
    | Except.ok t => (⟨true, some t, none⟩, st)
    | Except.error e => (⟨false, none, some e⟩, st)

/-- Embeds the Promise.all over keys in getRedisKeys: for each key fetch
client.type and client.ttl; the first rejection aborts the whole batch. -/
def fetchKeyDetails (client : Session) : List String → Except String (List KeyDetail)
  | [] => Except.ok []
  | k :: ks =>
    match client.typeFn k with
    | Except.error e => Except.error e
    | Except.ok t =>
      match client.ttlFn k with
      | Except.error e => Except.error e
      | Except.ok ttl =>
        match fetchKeyDetails client ks with
        | Except.error e => Except.error e
        | Except.ok rest => Except.ok (⟨k, t, ttl⟩ :: rest)

/-- Embeds getRedisKeys(id, pattern = "*"): absent id yields the Not
connected failure; otherwise client.keys(pattern) enumerates matching
keys, then type and ttl are fetched for each, and the full detail list is
returned with no sorting, pagination, or total count. -/
def getRedisKeys (st : ServerState) (id : String) (pattern : String) :
    KeysResult × ServerState :=
  match lookupAssoc st.connections id with
  | none => (⟨false, none, some "Not connected"⟩, st)
  | some client =>
    match client.keysFn pattern with
    | Except.error e => (⟨false, none, some e⟩, st)
    | Except.ok ks =>
      match fetchKeyDetails client ks with
      | Except.error e => (⟨false, none, some e⟩, st)
      | Except.ok details => (⟨true, some details, none⟩, st)

/-- Models JavaScript String.prototype.trim on the character list:
drop leading and trailing whitespace. -/
def jsTrimL (l : List Char) : List Char :=
  ((l.dropWhile Char.isWhitespace).reverse.dropWhile Char.isWhitespace).reverse

/-- Splits a character list into its maximal nonblank runs (the behavior
of split(/\s+/) on a trimmed nonempty string); cur accumulates the
current run in reverse. -/
def wsTokensAux : List Char → List Char → List (List Char)
  | [], cur => if cur = [] then [] else [cur.reverse]
  | c :: cs, cur =>
    if c.isWhitespace then
      if cur = [] then wsTokensAux cs [] else cur.reverse :: wsTokensAux cs []
    else wsTokensAux cs (c :: cur)

/-- Embeds command.trim().split(/\s+/): JavaScript split of the trimmed
string on whitespace runs. The trimmed empty string splits to the
one-element list holding the empty string; a trimmed nonempty string
splits into its maximal nonblank runs. -/
def jsTokenize (command : String) : List String :=
  let t := jsTrimL command.data
  if t = [] then [""]
  else (wsTokensAux t []).map (fun cs => String.mk cs)

/-- Embeds executeRedisCommand(id, command): absent id yields the Not
connected failure; otherwise the raw command is trimmed, split on
whitespace, and the token list forwarded to client.sendCommand as a
single protocol command; the reply is returned JSON-serialized, a thrown
error as a failure. No timing, timestamp, history append, or other state
mutation occurs here. -/
def executeRedisCommand (st : ServerState) (id : String) (command : String) :
    ExecResult × ServerState :=
  match lookupAssoc st.connections id with
  | none => (⟨false, none, some "Not connected"⟩, st)
  | some client =>
    match client.reply (jsTokenize command) with
    | Except.ok r => (⟨true, some (jsonStringify r), none⟩, st)
    | Except.error e => (⟨false, none, some e⟩, st)

/-- Embeds getServerMetrics(id): absent id yields the Not connected
failure; otherwise info('server'), info('stats'), info('memory') are
issued in order and their raw texts returned; the first thrown error
becomes the failure result. -/
def getServerMetrics (st : ServerState) (id : String) :
    MetricsResult × ServerState :=
  match lookupAssoc st.connections id with
  | none => (⟨false, none, none, none, some "Not connected"⟩, st)
  | some client =>
    match client.infoFn (some "server") with
    | Except.error e => (⟨false, none, none, none, some e⟩, st)
    | Except.ok server =>
      match client.infoFn (some "stats") with
      | Except.error e => (⟨false, none, none, none, some e⟩, st)
      | Except.ok stats =>
        match client.infoFn (some "memory") with
        | Except.error e => (⟨false, none, none, none, some e⟩, st)
        | Except.ok memory =>
          (⟨true, some server, some stats, some memory, none⟩, st)

/-- Embeds disconnectRedis(id): with a binding present, quit the session
and delete the binding; quit has no surrounding try, so a quit throw
propagates (Except.error) leaving the binding in place. With no binding,
return the acknowledgement unchanged. -/
def disconnectRedis (st : ServerState) (id : String) :
    Except String (DisconnectResult × ServerState) :=
  match lookupAssoc st.connections id with
  | some client =>
    match client.quitRes with
    | Except.ok _ =>
      Except.ok (⟨true⟩,
        { st with connections := removeAssoc st.connections id,
                  quitLog := st.quitLog ++ [client.sid] })
    | Except.error e => Except.error e
  | none => Except.ok (⟨true⟩, st)

/-- Embeds the reconnect policy configured at client creation:
socket.reconnectStrategy = (retries) => Math.min(retries * 50, 500). -/
def reconnectStrategy (retries : Nat) : Nat :=
  min (retries * 50) 500

/-- Embeds the history update in handleExecute:
setResults(prev => [result, ...prev.slice(0, 49)]), prepending the new
outcome and keeping at most 49 previous entries. -/
def handleExecuteResults {α : Type} (result : α) (prev : List α) : List α :=
  result :: prev.take 49

/-- The history after a chronological run of outcomes, each handled by
handleExecuteResults starting from the empty list. -/
def historyAfter {α : Type} (outcomes : List α) : List α :=
  outcomes.foldl (fun acc r => handleExecuteResults r acc) []

/-- Bracket-class scanner for the glob matcher below: consumes the class
body, returning whether c is a member and the pattern remaining after the
closing bracket (class members, escaped members, and a-b ranges). An
unterminated class consumes the rest of the pattern. -/
def globBrack : List Char → Char → Bool × List Char
  | [], _ => (false, [])
  | '\\' :: a :: rest, c =>
    let r := globBrack rest c
    (r.1 || (a = c), r.2)
  | ']' :: rest, _ => (false, rest)
  | a :: '-' :: b :: rest, c =>
    let r := globBrack rest c
    (r.1 || (min a b ≤ c && c ≤ max a b), r.2)
  | a :: rest, c =>
    let r := globBrack rest c
    (r.1 || (a = c), r.2)

/-- Glob-style key-pattern matching of the underlying protocol's KEYS
command (an external dependency of the repository), over character lists:
star matches any run, question mark one character, bracket classes one
member character, backslash escapes, all other characters literally.
Structural recursion on a fuel argument keeps the definition
kernel-reducible; every step shrinks pattern length plus subject length,
so fuel equal to their sum plus one never runs out. -/
def globMatchFuel : Nat → List Char → List Char → Bool
  | 0, _, _ => false
  | _ + 1, [], s => s.isEmpty
  | f + 1, '*' :: ps, [] => globMatchFuel f ps []
  | f + 1, '*' :: ps, c :: cs =>
    globMatchFuel f ps (c :: cs) || globMatchFuel f ('*' :: ps) cs
  | f + 1, '?' :: ps, _ :: cs => globMatchFuel f ps cs
  | f + 1, '[' :: '^' :: ps, c :: cs =>
    let r := globBrack ps c
    !r.1 && globMatchFuel f r.2 cs
  | f + 1, '[' :: ps, c :: cs =>
    let r := globBrack ps c
    r.1 && globMatchFuel f r.2 cs
  | f + 1, '\\' :: a :: ps, c :: cs => a = c && globMatchFuel f ps cs
  | f + 1, p :: ps, c :: cs => p = c && globMatchFuel f ps cs
  | _ + 1, _ :: _, [] => false

/-- Glob matching on strings, with sufficient fuel. -/
def globMatch (pattern s : String) : Bool :=
  globMatchFuel (pattern.length + s.length + 1) pattern.data s.data

/-- A key database for modeling a session's keyspace: key name, Redis
type name, and remaining TTL in seconds. -/
def KeyDb : Type := List (String × String × Int)

/-- The key names of a database. -/
def dbNames (db : KeyDb) : List String :=
  db.map (fun e => e.1)

/-- TYPE of a key in the database (the protocol answers none for a
missing key). -/
def dbType (db : KeyDb) (k : String) : String :=
  ((db.find? (fun e => e.1 = k)).map (fun e => e.2.1)).getD "none"

/-- TTL of a key in the database (the protocol answers -2 for a missing
key). -/
def dbTtl (db : KeyDb) (k : String) : Int :=
  ((db.find? (fun e => e.1 = k)).map (fun e => e.2.2)).getD (-2)

/-- A session whose key-inspection behavior is derived from a key
database: KEYS filters the names through glob matching, TYPE and TTL
answer from the database. -/
def mkDbSession (sid : String) (db : KeyDb)
    (reply : List String → Except String RValue)
    (infoFn : Option String → Except String String)
    (quitRes : Except String Unit) : Session :=
  { sid := sid
    reply := reply
    keysFn := fun p => Except.ok ((dbNames db).filter (fun k => globMatch p k))
    typeFn := fun k => Except.ok (dbType db k)
    ttlFn := fun k => Except.ok (dbTtl db k)
    infoFn := infoFn
    quitRes := quitRes }

/-- Wraps a sendCommand outcome the way executeRedisCommand returns it:
ok replies are JSON-serialized into the result field, thrown errors
become the failure record; the state is untouched either way. -/
def execWrap (st : ServerState) (r : Except String RValue) :
    ExecResult × ServerState :=
  match r with
  | Except.ok v => (⟨true, some (jsonStringify v), none⟩, st)
  | Except.error e => (⟨false, none, some e⟩, st)

/-- Modelled from the spec: the typed ServerSnapshot record of the
Metrics Reporter contract (version, mode, role, connected clients,
memory counter, hit and miss counters, uptime). The repository declares
this shape only as a front-end type; no server-side producer exists
under src, so the spec's wording is followed here for comparison with
getServerMetrics. -/
structure ServerSnapshot where
  version : String
  mode : String
  role : String
  connectedClients : Nat
  usedMemory : Nat
  keyspaceHits : Nat
  keyspaceMisses : Nat
  uptimeInSeconds : Nat
deriving Repr, DecidableEq

/-- Splits a character list on CRLF separators; cur accumulates the
current line in reverse. -/
def splitLinesAux : List Char → List Char → List (List Char)
  | [], cur => [cur.reverse]
  | '\r' :: '\n' :: cs, cur => cur.reverse :: splitLinesAux cs []
  | c :: cs, cur => splitLinesAux cs (c :: cur)

/-- Splits a character list on colons; cur accumulates the current piece
in reverse. -/
def splitColonAux : List Char → List Char → List (List Char)
  | [], cur => [cur.reverse]
  | ':' :: cs, cur => cur.reverse :: splitColonAux cs []
  | c :: cs, cur => splitColonAux cs (c :: cur)

/-- Modelled from the spec: extracts the value of a name:value line of a
semi-structured INFO section text (lines separated by CRLF). -/
def infoField (text name : String) : Option String :=
  ((splitLinesAux text.data []).filterMap (fun line =>
    match splitColonAux line [] with
    | [k, v] => if String.mk k = name then some (String.mk v) else none
    | _ => none)).head?

/-- Reads a nonempty all-digit character list as a natural number. -/
def natOfDigits : List Char → Nat → Option Nat
  | [], acc => some acc
  | c :: cs, acc =>
    if c.isDigit then natOfDigits cs (acc * 10 + (c.toNat - 48)) else none

/-- Parses a decimal natural number from a string, none when empty or
nonnumeric. -/
def parseNatL (s : String) : Option Nat :=
  if s.data = [] then none else natOfDigits s.data 0

/-- Modelled from the spec: a numeric INFO field, defaulting to zero when
unknown or missing, as the graceful-degradation contract requires. -/
def natField (text name : String) : Nat :=
  ((infoField text name).bind (fun v => parseNatL v)).getD 0

/-- Modelled from the spec: a textual INFO field, defaulting to the empty
string when missing. -/
def strField (text name : String) : String :=
  (infoField text name).getD ""

/-- Modelled from the spec: parses the server, stats, and memory INFO
section texts into the typed ServerSnapshot, tolerating unknown or
missing fields by zero or empty defaults rather than failing. -/
def parseServerSnapshot (server stats memory : String) : ServerSnapshot :=
  { version := strField server "redis_version"
    mode := strField server "redis_mode"
    role := strField server "role"
    connectedClients := natField server "connected_clients"
    usedMemory := natField memory "used_memory"
    keyspaceHits := natField stats "keyspace_hits"
    keyspaceMisses := natField stats "keyspace_misses"
    uptimeInSeconds := natField server "uptime_in_seconds" }

/-- A fixture session answering PONG to PING and nil otherwise. -/
def pingSession : Session :=
  { sid := "s1"
    reply := fun ts =>
      if ts = ["PING"] then Except.ok (RValue.status "PONG") else Except.ok RValue.nil
    keysFn := fun _ => Except.ok []
    typeFn := fun _ => Except.ok "none"
    ttlFn := fun _ => Except.ok (-2)
    infoFn := fun _ => Except.ok ""
    quitRes := Except.ok () }

/-- A fixture state holding the PING session under id c1. -/
def pingState : ServerState := ⟨[("c1", pingSession)], []⟩

/-- The three-key fixture database named by the listing claim. -/
def userDb : KeyDb :=
  [("user:1", "string", -1), ("user:2", "string", -1), ("user:3", "string", -1)]

/-- A fixture session over the three-key database. -/
def userSession : Session :=
  mkDbSession "s4" userDb (fun _ => Except.ok RValue.nil)
    (fun _ => Except.ok "") (Except.ok ())

/-- A fixture state holding the user-database session under id c1. -/
def userState : ServerState := ⟨[("c1", userSession)], []⟩

/-- A fixture session whose quit() call throws. -/
def badQuitSession : Session :=
  { sid := "old1"
    reply := fun _ => Except.ok RValue.nil
    keysFn := fun _ => Except.ok []
    typeFn := fun _ => Except.ok "none"
    ttlFn := fun _ => Except.ok (-2)
    infoFn := fun _ => Except.ok ""
    quitRes := Except.error "quit failed" }

/-- A fixture session whose quit() call succeeds. -/
def goodOldSession : Session :=
  { sid := "old2"
    reply := fun _ => Except.ok RValue.nil
    keysFn := fun _ => Except.ok []
    typeFn := fun _ => Except.ok "none"
    ttlFn := fun _ => Except.ok (-2)
    infoFn := fun _ => Except.ok ""
    quitRes := Except.ok () }

/-- A fixture session to be produced by a successful new connect. -/
def freshSession : Session :=
  { sid := "new1"
    reply := fun _ => Except.ok RValue.nil
    keysFn := fun _ => Except.ok []
    typeFn := fun _ => Except.ok "none"
    ttlFn := fun _ => Except.ok (-2)
    infoFn := fun _ => Except.ok ""
    quitRes := Except.ok () }

/-- A fixture state whose registered session has a failing quit. -/
def badQuitState : ServerState := ⟨[("c1", badQuitSession)], []⟩

/-- A fixture state whose registered session has a succeeding quit. -/
def goodOldState : ServerState := ⟨[("c1", goodOldSession)], []⟩

/-- Server INFO fixture text. -/
def serverTextA : String := "redis_version:7.0.0\r\nuptime_in_seconds:100"

/-- The same server INFO fixture text with one extra unknown field. -/
def serverTextB : String :=
  "redis_version:7.0.0\r\nuptime_in_seconds:100\r\nsome_unknown_field:42"

/-- Stats INFO fixture text. -/
def statsText : String := "keyspace_hits:10\r\nkeyspace_misses:2"

/-- Memory INFO fixture text. -/
def memoryText : String := "used_memory:1048576"

/-- Builds a session whose INFO sections answer the three given texts. -/
def mkInfoSession (sid server stats memory : String) : Session :=
  { sid := sid
    reply := fun _ => Except.ok RValue.nil
    keysFn := fun _ => Except.ok []
    typeFn := fun _ => Except.ok "none"
    ttlFn := fun _ => Except.ok (-2)
    infoFn := fun sec =>
      if sec = some "server" then Except.ok server
      else if sec = some "stats" then Except.ok stats
      else if sec = some "memory" then Except.ok memory
      else Except.ok ""
    quitRes := Except.ok () }

/-- Fixture state whose session serves the first server text. -/
def infoStateA : ServerState :=
  ⟨[("c1", mkInfoSession "i1" serverTextA statsText memoryText)], []⟩

/-- Fixture state whose session serves the server text with the unknown
field added. -/
def infoStateB : ServerState :=
  ⟨[("c1", mkInfoSession "i2" serverTextB statsText memoryText)], []⟩

/-- Looking up the id just set finds the session just stored. -/
theorem lookup_setAssoc_self (l : List (String × Session)) (id : String)
    (s : Session) : lookupAssoc (setAssoc l id s) id = some s := by
  induction l with
  | nil => simp [setAssoc, lookupAssoc]
  | cons hd t ih =>
    obtain ⟨k, v⟩ := hd
    by_cases hk : k = id
    · simp [setAssoc, lookupAssoc, hk]
    · simp [setAssoc, lookupAssoc, hk, ih]

/-- Looking up an id just removed finds nothing. -/
theorem lookup_removeAssoc_self (l : List (String × Session)) (id : String) :
    lookupAssoc (removeAssoc l id) id = none := by
  induction l with
  | nil => simp [removeAssoc, lookupAssoc]
  | cons hd t ih =>
    obtain ⟨k, v⟩ := hd
    by_cases hk : k = id
    · simpa [removeAssoc, List.filter, hk] using ih
    · simpa [removeAssoc, List.filter, lookupAssoc, hk] using ih

/-- For a session answering type and ttl queries from a database,
fetching details of a key list succeeds with one detail per key in
order. -/
theorem fetchKeyDetails_ok (client : Session) (db : KeyDb)
    (htype : ∀ k, client.typeFn k = Except.ok (dbType db k))
    (httl : ∀ k, client.ttlFn k = Except.ok (dbTtl db k)) :
    ∀ ks, fetchKeyDetails client ks =
      Except.ok (ks.map (fun k => ⟨k, dbType db k, dbTtl db k⟩)) := by
  intro ks
  induction ks with
  | nil => rfl
  | cons k t ih => simp [fetchKeyDetails, htype k, httl k, ih]

/-- One history step on a trimmed reverse-chronological view advances the
view by the new outcome. -/
theorem handleExecuteResults_step {α : Type} (r : α) (p : List α) :
    handleExecuteResults r (p.reverse.take 50) = (p ++ [r]).reverse.take 50 := by
  simp [handleExecuteResults, List.take_take]

/-- Folding history steps over further outcomes extends the trimmed
reverse-chronological view. -/
theorem historyAfter_general {α : Type} (rs : List α) :
    ∀ p : List α,
      rs.foldl (fun acc r => handleExecuteResults r acc) (p.reverse.take 50) =
        (p ++ rs).reverse.take 50 := by
  induction rs with
  | nil => intro p; simp
  | cons r t ih =>
    intro p
    rw [List.foldl_cons, handleExecuteResults_step]
    simpa using ih (p ++ [r])

/-- The history after a chronological run is the most recent fifty
outcomes, most recent first. -/
theorem historyAfter_eq {α : Type} (rs : List α) :
    historyAfter rs = rs.reverse.take 50 := by
  simpa [historyAfter] using historyAfter_general rs []

/-- A successful connect stores the new session in the registry. -/
theorem connect_ok_connections (st : ServerState) (id : String) (s : Session)
    (h : (connectToRedis st id (Except.ok s)).1.success = true) :
    (connectToRedis st id (Except.ok s)).2.connections =
      setAssoc st.connections id s := by
  cases hl : lookupAssoc st.connections id with
  | none => simp [connectToRedis, hl]
  | some old =>
    cases hq : old.quitRes with
    | ok u => simp [connectToRedis, hl, hq]
    | error e => simp [connectToRedis, hl, hq] at h

/-- C1: for every connection identifier with no entry in the connection
registry, each of executeRedisCommand, getRedisKeys, getRedisInfo and
getServerMetrics returns a failure result carrying the Not connected
error and leaves the whole server state (registry and quit log)
unchanged. -/
theorem c1_not_connected_no_side_effects (st : ServerState) (id : String)
    (h : lookupAssoc st.connections id = none) :
    (∀ cmd, executeRedisCommand st id cmd =
      (⟨false, none, some "Not connected"⟩, st)) ∧
    (∀ pat, getRedisKeys st id pat =
      (⟨false, none, some "Not connected"⟩, st)) ∧
    getRedisInfo st id = (⟨false, none, some "Not connected"⟩, st) ∧
    getServerMetrics st id =
      (⟨false, none, none, none, some "Not connected"⟩, st) := by
  refine ⟨fun cmd => ?_, fun pat => ?_, ?_, ?_⟩ <;>
    simp [executeRedisCommand, getRedisKeys, getRedisInfo, getServerMetrics, h]

/-- Witness for C1 at the empty registry and id c1. -/
theorem c1_witness :
    executeRedisCommand ⟨[], []⟩ "c1" "PING" =
      (⟨false, none, some "Not connected"⟩, (⟨[], []⟩ : ServerState)) ∧
    getServerMetrics ⟨[], []⟩ "c1" =
      (⟨false, none, none, none, some "Not connected"⟩,
        (⟨[], []⟩ : ServerState)) := by
  have h := c1_not_connected_no_side_effects ⟨[], []⟩ "c1" rfl
  exact ⟨h.1 "PING", h.2.2.2⟩

/-- C2: for any chronological run of execute outcomes, the per-connection
command history holds at most fifty entries and equals exactly the most
recent fifty outcomes in reverse-chronological order; in particular a run
of one thousand outcomes leaves exactly fifty; each step prepends the new
outcome and trims the list to fifty. -/
theorem c2_history_bounded_most_recent :
    (∀ (α : Type) (r : α) (prev : List α),
      handleExecuteResults r prev = r :: prev.take 49) ∧
    (∀ (α : Type) (rs : List α),
      (historyAfter rs).length ≤ 50 ∧ historyAfter rs = rs.reverse.take 50) ∧
    (historyAfter (List.range 1000)).length = 50 ∧
    historyAfter (List.range 1000) = (List.range 1000).reverse.take 50 := by
  refine ⟨fun α r prev => rfl, fun α rs => ⟨?_, historyAfter_eq rs⟩, ?_, historyAfter_eq _⟩
  · rw [historyAfter_eq]
    simp
  · rw [historyAfter_eq]
    simp

/-- C7: the reconnect policy configured at session creation computes, for
every attempt number, the delay min of attempt times fifty and five
hundred milliseconds; the delay is monotone in the attempt number and
never exceeds five hundred. -/
theorem c7_reconnect_backoff_policy :
    (∀ n, reconnectStrategy n = min (n * 50) 500) ∧
    (∀ m n, m ≤ n → reconnectStrategy m ≤ reconnectStrategy n) ∧
    (∀ n, reconnectStrategy n ≤ 500) := by
  refine ⟨fun n => rfl, fun m n h => ?_, fun n => ?_⟩
  · simp only [reconnectStrategy]
    omega
  · simp only [reconnectStrategy]
    omega

/-- Witness for C7 at attempts three, seven and twenty. -/
theorem c7_witness :
    reconnectStrategy 3 ≤ reconnectStrategy 7 ∧
    reconnectStrategy 3 = 150 ∧ reconnectStrategy 20 = 500 := by
  exact ⟨c7_reconnect_backoff_policy.2.1 3 7 (by decide), by decide, by decide⟩

/-- C10: for a registered connection id, a raw command that is empty or
whitespace only is not rejected: the trim-then-split tokenizer yields the
one-element token list holding the empty string, and executeRedisCommand
forwards exactly that list to the session as the protocol command. -/
theorem c10_blank_command_forwarded (st : ServerState) (id : String)
    (sess : Session) (cmd : String)
    (hs : lookupAssoc st.connections id = some sess)
    (hb : jsTrimL cmd.data = []) :
    jsTokenize cmd = [""] ∧
    executeRedisCommand st id cmd = execWrap st (sess.reply [""]) := by
  have ht : jsTokenize cmd = [""] := by simp [jsTokenize, hb]
  refine ⟨ht, ?_⟩
  cases h : sess.reply [""] <;>
    simp [executeRedisCommand, execWrap, hs, ht, h]

/-- Witness for C10 on a three-space command at the PING fixture. -/
theorem c10_witness :
    jsTokenize "   " = [""] ∧
    executeRedisCommand pingState "c1" "   " =
      execWrap pingState (pingSession.reply [""]) := by
  exact c10_blank_command_forwarded pingState "c1" pingSession "   " rfl (by decide)

/-- C3 counterexample: at the PING fixture, the raw commands PING and
PING followed by a space are distinct, yet executeRedisCommand returns
identical results for them, so the returned value cannot be a
CommandOutcome record carrying the original command (nor elapsed time or
timestamp, which the result shape lacks entirely): no extraction of the
original command from the result exists. -/
theorem c3_counterexample :
    (executeRedisCommand pingState "c1" "PING").1 =
      (executeRedisCommand pingState "c1" "PING ").1 ∧
    "PING" ≠ "PING " ∧
    ¬ ∃ getCmd : ExecResult → String,
      ∀ cmd : String, getCmd (executeRedisCommand pingState "c1" cmd).1 = cmd := by
  refine ⟨by decide, by decide, ?_⟩
  rintro ⟨g, hg⟩
  have h1 := hg "PING"
  have h2 := hg "PING "
  have he : (executeRedisCommand pingState "c1" "PING").1 =
      (executeRedisCommand pingState "c1" "PING ").1 := by decide
  rw [he] at h1
  exact absurd (h1.symm.trans h2) (by decide)

/-- C3 amended: for every registered connection id and raw command,
executeRedisCommand tokenizes the raw command by trimming and splitting
on whitespace with no quoting support, forwards the token list to the
session as a single protocol command, and returns the JSON-serialized
reply in the result field of a plain success record (the thrown message
on failure), leaving the state unchanged; no elapsed time, timestamp, or
original command is attached. -/
theorem c3_execute_tokenizes_and_forwards (st : ServerState) (id : String)
    (sess : Session) (cmd : String)
    (hs : lookupAssoc st.connections id = some sess) :
    executeRedisCommand st id cmd = execWrap st (sess.reply (jsTokenize cmd)) ∧
    (∀ v, sess.reply (jsTokenize cmd) = Except.ok v →
      executeRedisCommand st id cmd =
        ((⟨true, some (jsonStringify v), none⟩ : ExecResult), st)) ∧
    jsTokenize "SET key value" = ["SET", "key", "value"] ∧
    jsTokenize "  GET  x " = ["GET", "x"] := by
  have hf : executeRedisCommand st id cmd =
      execWrap st (sess.reply (jsTokenize cmd)) := by
    cases h : sess.reply (jsTokenize cmd) <;>
      simp [executeRedisCommand, execWrap, hs, h]
  refine ⟨hf, fun v hv => ?_, by decide, by decide⟩
  rw [hf, hv]
  rfl

/-- Witness for the amended C3 at the PING fixture. -/
theorem c3_witness :
    executeRedisCommand pingState "c1" "PING" =
      execWrap pingState (pingSession.reply (jsTokenize "PING")) ∧
    executeRedisCommand pingState "c1" "PING" =
      ((⟨true, some "\x22PONG\x22", none⟩ : ExecResult), pingState) := by
  have h := c3_execute_tokenizes_and_forwards pingState "c1" pingSession "PING" rfl
  exact ⟨h.1, h.2.1 (RValue.status "PONG") rfl⟩

/-- C4 counterexample: against the database holding exactly user:1,
user:2 and user:3, the listing call with pattern user:* returns all three
entries in one flat list; the result is not a page of exactly two entries
and carries no total-count field, refuting the claimed pagination. -/
theorem c4_counterexample :
    (getRedisKeys userState "c1" "user:*").1 =
      ⟨true, some [⟨"user:1", "string", -1⟩, ⟨"user:2", "string", -1⟩,
        ⟨"user:3", "string", -1⟩], none⟩ ∧
    ¬ ((((getRedisKeys userState "c1" "user:*").1.keys.getD []).length) = 2) := by
  exact ⟨by decide, by decide⟩

/-- C4 amended: for a session answering from a key database,
getRedisKeys enumerates the keys matching the glob pattern (unmatched
keys excluded), fetches type and remaining TTL for every matched key,
and returns the full materialized candidate set in enumeration order,
with no sorting, pagination, page size, or total count applied. -/
theorem c4_listKeys_full_candidate_set (st : ServerState) (id : String)
    (sid : String) (db : KeyDb)
    (reply : List String → Except String RValue)
    (infoFn : Option String → Except String String) (q : Except String Unit)
    (pat : String)
    (hs : lookupAssoc st.connections id =
      some (mkDbSession sid db reply infoFn q)) :
    getRedisKeys st id pat =
      (⟨true, some (((dbNames db).filter (fun k => globMatch pat k)).map
        (fun k => ⟨k, dbType db k, dbTtl db k⟩)), none⟩, st) := by
  have hk : (mkDbSession sid db reply infoFn q).keysFn pat =
      Except.ok ((dbNames db).filter (fun k => globMatch pat k)) := rfl
  have hfetch := fetchKeyDetails_ok (mkDbSession sid db reply infoFn q) db
    (fun k => rfl) (fun k => rfl)
    ((dbNames db).filter (fun k => globMatch pat k))
  simp [getRedisKeys, hs, hk, hfetch]

/-- Witness for the amended C4 at the three-user fixture. -/
theorem c4_witness :
    getRedisKeys userState "c1" "user:*" =
      (⟨true, some (((dbNames userDb).filter (fun k => globMatch "user:*" k)).map
        (fun k => ⟨k, dbType userDb k, dbTtl userDb k⟩)), none⟩, userState) ∧
    ((dbNames userDb).filter (fun k => globMatch "user:*" k)).length = 3 := by
  exact ⟨c4_listKeys_full_candidate_set userState "c1" "s4" userDb
    (fun _ => Except.ok RValue.nil) (fun _ => Except.ok "") (Except.ok ())
    "user:*" rfl, by decide⟩

/-- C5 counterexample: at the fixture whose registered session has a
failing quit, a connect with a perfectly good new session returns the
quit failure, the registry still holds the old session, and no quit
completed: the termination failure did prevent establishing and
registering the new session. -/
theorem c5_counterexample :
    (connectToRedis badQuitState "c1" (Except.ok freshSession)).1 =
      ⟨false, none, some "quit failed"⟩ ∧
    ((connectToRedis badQuitState "c1" (Except.ok freshSession)).2.connections.map
      (fun p => (p.1, p.2.sid))) = [("c1", "old1")] ∧
    (connectToRedis badQuitState "c1" (Except.ok freshSession)).2.quitLog = [] := by
  exact ⟨rfl, rfl, rfl⟩

/-- C5 amended: when the id has a live session, connect terminates it
first; if that termination throws, connect returns the typed error and
neither establishes nor registers the new session (registry and quit log
unchanged); when termination succeeds, or no session exists, a
successful open registers the new session under the id and a failed open
returns a typed error carrying the underlying cause; on every successful
connect the new session ends up registered. -/
theorem c5_connect_lifecycle (st : ServerState) (id : String) :
    (∀ old, lookupAssoc st.connections id = some old →
      (∀ e, old.quitRes = Except.error e → ∀ nc,
        connectToRedis st id nc = (⟨false, none, some e⟩, st)) ∧
      (old.quitRes = Except.ok () →
        (∀ s, connectToRedis st id (Except.ok s) =
          (⟨true, some "Connected to Redis", none⟩,
           ⟨setAssoc st.connections id s, st.quitLog ++ [old.sid]⟩)) ∧
        (∀ e, connectToRedis st id (Except.error e) =
          (⟨false, none, some e⟩, ⟨st.connections, st.quitLog ++ [old.sid]⟩)))) ∧
    (lookupAssoc st.connections id = none →
      (∀ s, connectToRedis st id (Except.ok s) =
        (⟨true, some "Connected to Redis", none⟩,
         ⟨setAssoc st.connections id s, st.quitLog⟩)) ∧
      (∀ e, connectToRedis st id (Except.error e) =
        (⟨false, none, some e⟩, st))) ∧
    (∀ s, (connectToRedis st id (Except.ok s)).1.success = true →
      lookupAssoc (connectToRedis st id (Except.ok s)).2.connections id =
        some s) := by
  refine ⟨fun old hl => ⟨fun e hq nc => ?_, fun hq => ⟨fun s => ?_, fun e => ?_⟩⟩,
    fun hl => ⟨fun s => ?_, fun e => ?_⟩, fun s hsucc => ?_⟩
  · simp [connectToRedis, hl, hq]
  · simp [connectToRedis, hl, hq]
  · simp [connectToRedis, hl, hq]
  · simp [connectToRedis, hl]
  · simp [connectToRedis, hl]
  · rw [connect_ok_connections st id s hsucc]
    exact lookup_setAssoc_self st.connections id s

/-- Witness for the amended C5: the failing-quit clause at the bad-quit
fixture and the fresh-registration clause at the empty registry. -/
theorem c5_witness :
    connectToRedis badQuitState "c1" (Except.ok freshSession) =
      (⟨false, none, some "quit failed"⟩, badQuitState) ∧
    connectToRedis ⟨[], []⟩ "c1" (Except.ok freshSession) =
      (⟨true, some "Connected to Redis", none⟩,
       ⟨setAssoc [] "c1" freshSession, []⟩) := by
  refine ⟨?_, ?_⟩
  · exact ((c5_connect_lifecycle badQuitState "c1").1 badQuitSession rfl).1
      "quit failed" rfl (Except.ok freshSession)
  · exact ((c5_connect_lifecycle ⟨[], []⟩ "c1").2.1 rfl).1 freshSession

/-- C6 counterexample: at the fixture whose registered session has a
failing quit, disconnect does not return an acknowledgement: the quit
throw propagates uncaught (disconnectRedis has no try), so no success
record is produced and — since in this embedding the registry changes
only through the returned state — the entry is not removed and the
registry still binds the id to the old session, refuting the
unconditional idempotence claim at a concrete input. -/
theorem c6_counterexample :
    disconnectRedis badQuitState "c1" = Except.error "quit failed" ∧
    (¬ ∃ res st2, disconnectRedis badQuitState "c1" = Except.ok (res, st2)) ∧
    (badQuitState.connections.map (fun p => (p.1, p.2.sid))) =
      [("c1", "old1")] := by
  refine ⟨rfl, ?_, rfl⟩
  rintro ⟨res, st2, h⟩
  rw [show disconnectRedis badQuitState "c1" = Except.error "quit failed"
    from rfl] at h
  exact Except.noConfusion h

/-- C6 amended: disconnect is idempotent on absent entries: an absent
entry is not an error and the acknowledgement is returned with the state
unchanged; a present entry whose quit succeeds is closed and removed,
after which lookup finds nothing; a successful connect immediately
followed by disconnect whose session quit succeeds leaves the registry
with no entry for that id, every subsequent executeRedisCommand
answering Not connected; but a present entry whose quit throws makes
disconnect propagate the error unhandled, with no acknowledgement and no
removal. -/
theorem c6_disconnect_behavior (st : ServerState) (id : String) :
    (lookupAssoc st.connections id = none →
      disconnectRedis st id = Except.ok (⟨true⟩, st)) ∧
    (∀ s, lookupAssoc st.connections id = some s →
      s.quitRes = Except.ok () →
      disconnectRedis st id = Except.ok (⟨true⟩,
        ⟨removeAssoc st.connections id, st.quitLog ++ [s.sid]⟩) ∧
      lookupAssoc (removeAssoc st.connections id) id = none) ∧
    (∀ fresh, fresh.quitRes = Except.ok () →
      (connectToRedis st id (Except.ok fresh)).1.success = true →
      Except.isOk
        (disconnectRedis (connectToRedis st id (Except.ok fresh)).2 id) = true ∧
      (∀ res st2,
        disconnectRedis (connectToRedis st id (Except.ok fresh)).2 id =
          Except.ok (res, st2) →
        res = ⟨true⟩ ∧ lookupAssoc st2.connections id = none ∧
        (∀ cmd, (executeRedisCommand st2 id cmd).1 =
          ⟨false, none, some "Not connected"⟩))) ∧
    (∀ s e, lookupAssoc st.connections id = some s →
      s.quitRes = Except.error e →
      disconnectRedis st id = Except.error e) := by
  refine ⟨fun hl => ?_, fun s hl hq => ⟨?_, ?_⟩, fun fresh hq hsucc => ?_,
    fun s e hl hq => ?_⟩
  · simp [disconnectRedis, hl]
  · simp [disconnectRedis, hl, hq]
  · exact lookup_removeAssoc_self st.connections id
  · have hl : lookupAssoc
        (connectToRedis st id (Except.ok fresh)).2.connections id = some fresh := by
      rw [connect_ok_connections st id fresh hsucc]
      exact lookup_setAssoc_self st.connections id fresh
    have hd : disconnectRedis (connectToRedis st id (Except.ok fresh)).2 id =
        Except.ok (⟨true⟩,
          ⟨removeAssoc (connectToRedis st id (Except.ok fresh)).2.connections id,
           (connectToRedis st id (Except.ok fresh)).2.quitLog ++ [fresh.sid]⟩) := by
      simp [disconnectRedis, hl, hq]
    refine ⟨by rw [hd]; rfl, fun res st2 heq => ?_⟩
    rw [hd] at heq
    injection heq with hpair
    have hres := congrArg Prod.fst hpair
    have hst2 := congrArg Prod.snd hpair
    have hconn := congrArg ServerState.connections hst2
    have hnone : lookupAssoc st2.connections id = none := by
      rw [← hconn]
      exact lookup_removeAssoc_self _ id
    refine ⟨hres.symm, hnone, fun cmd => ?_⟩
    simp [executeRedisCommand, hnone]
  · simp [disconnectRedis, hl, hq]

/-- Witness for the amended C6: the absent-entry clause at the empty
registry, the connect-then-disconnect clause starting from the empty
registry, and the quit-throw clause at the failing-quit fixture. -/
theorem c6_witness :
    disconnectRedis ⟨[], []⟩ "c1" =
      Except.ok (⟨true⟩, (⟨[], []⟩ : ServerState)) ∧
    Except.isOk (disconnectRedis
      (connectToRedis ⟨[], []⟩ "c1" (Except.ok freshSession)).2 "c1") = true ∧
    disconnectRedis badQuitState "c1" = Except.error "quit failed" := by
  refine ⟨?_, ?_, ?_⟩
  · exact (c6_disconnect_behavior ⟨[], []⟩ "c1").1 rfl
  · exact ((c6_disconnect_behavior ⟨[], []⟩ "c1").2.2.1 freshSession rfl
      (by decide)).1
  · exact (c6_disconnect_behavior badQuitState "c1").2.2.2 badQuitSession
      "quit failed" rfl rfl

/-- C8 counterexample: at the fixture whose registered session has a
succeeding quit, a connect whose new-session open fails returns the
error while the registry still holds the old entry and the quit log
shows that entry's session has already been terminated: exactly the
half-applied state the claim rules out. -/
theorem c8_counterexample :
    (connectToRedis goodOldState "c1" (Except.error "connect refused")).1 =
      ⟨false, none, some "connect refused"⟩ ∧
    ((connectToRedis goodOldState "c1"
        (Except.error "connect refused")).2.connections.map
      (fun p => (p.1, p.2.sid))) = [("c1", "old2")] ∧
    (connectToRedis goodOldState "c1"
      (Except.error "connect refused")).2.quitLog = ["old2"] := by
  exact ⟨rfl, rfl, rfl⟩

/-- C8 amended: the read operations never mutate state at all (their
failures leave nothing half-applied), but connectToRedis is not atomic:
when the id has a registered session whose quit succeeds and the
new-session open then fails, the call returns the error with the
registry unchanged — still holding the id's entry — while the quit log
records that this entry's session was already terminated during the
failed call. -/
theorem c8_connect_not_atomic (st : ServerState) (id : String) :
    (∀ cmd, (executeRedisCommand st id cmd).2 = st) ∧
    (∀ pat, (getRedisKeys st id pat).2 = st) ∧
    ((getRedisInfo st id).2 = st) ∧
    ((getServerMetrics st id).2 = st) ∧
    (∀ old e, lookupAssoc st.connections id = some old →
      old.quitRes = Except.ok () →
      connectToRedis st id (Except.error e) =
        (⟨false, none, some e⟩, ⟨st.connections, st.quitLog ++ [old.sid]⟩)) := by
  refine ⟨fun cmd => ?_, fun pat => ?_, ?_, ?_, fun old e hl hq => ?_⟩
  · unfold executeRedisCommand
    split
    · rfl
    · split <;> rfl
  · unfold getRedisKeys
    split
    · rfl
    · split
      · rfl
      · split <;> rfl
  · unfold getRedisInfo
    split
    · rfl
    · split <;> rfl
  · unfold getServerMetrics
    split
    · rfl
    · split
      · rfl
      · split
        · rfl
        · split <;> rfl
  · simp [connectToRedis, hl, hq]

/-- Witness for the amended C8 at the good-quit fixture. -/
theorem c8_witness :
    (executeRedisCommand goodOldState "c1" "PING").2 = goodOldState ∧
    connectToRedis goodOldState "c1" (Except.error "connect refused") =
      (⟨false, none, some "connect refused"⟩,
       ⟨goodOldState.connections, goodOldState.quitLog ++ ["old2"]⟩) := by
  refine ⟨(c8_connect_not_atomic goodOldState "c1").1 "PING", ?_⟩
  exact (c8_connect_not_atomic goodOldState "c1").2.2.2.2 goodOldSession
    "connect refused" rfl rfl

/-- C9 counterexample: the two fixture states serve server INFO texts
that the spec-modelled snapshot parser maps to the same typed
ServerSnapshot (the extra unknown field is tolerated and ignored), yet
getServerMetrics returns different results for them, because it returns
the raw section text and parses nothing into typed fields. -/
theorem c9_counterexample :
    parseServerSnapshot serverTextB statsText memoryText =
      parseServerSnapshot serverTextA statsText memoryText ∧
    (getServerMetrics infoStateB "c1").1 ≠ (getServerMetrics infoStateA "c1").1 := by
  exact ⟨by decide, by decide⟩

/-- C9 amended: getServerMetrics issues the protocol's informational
queries for the server, stats and memory sections in order and returns
their raw semi-structured texts unparsed in the success record with the
state unchanged; the first failing query produces the typed error
result; no parsing into typed ServerSnapshot fields happens in this
operation. -/
theorem c9_metrics_raw_text (st : ServerState) (id : String) (sess : Session)
    (hs : lookupAssoc st.connections id = some sess) :
    (∀ server stats memory,
      sess.infoFn (some "server") = Except.ok server →
      sess.infoFn (some "stats") = Except.ok stats →
      sess.infoFn (some "memory") = Except.ok memory →
      getServerMetrics st id =
        (⟨true, some server, some stats, some memory, none⟩, st)) ∧
    (∀ e, sess.infoFn (some "server") = Except.error e →
      getServerMetrics st id = (⟨false, none, none, none, some e⟩, st)) := by
  refine ⟨fun server stats memory h1 h2 h3 => ?_, fun e h1 => ?_⟩
  · simp [getServerMetrics, hs, h1, h2, h3]
  · simp [getServerMetrics, hs, h1]

/-- Witness for the amended C9 at the first INFO fixture. -/
theorem c9_witness :
    getServerMetrics infoStateA "c1" =
      (⟨true, some serverTextA, some statsText, some memoryText, none⟩,
       infoStateA) := by
  exact (c9_metrics_raw_text infoStateA "c1"
    (mkInfoSession "i1" serverTextA statsText memoryText) rfl).1
    serverTextA statsText memoryText rfl rfl rfl
